import Mathlib

/-!
# `include/openssl/macros.h`: the API-compatibility gate

A shallow embedding of the preprocessor logic of `macros.h`.  The header is
modelled as a function from the build configuration (the macros that are
defined before the header is processed) to either the `#error` message or the
table of macros the header defines.

Integer values are the values the preprocessor computes in `#if` expressions.
The header only compares, masks and shifts right, so no operation can overflow
and the values are modelled as mathematical integers (`Int`), with
`Int.land` / `Int.shiftRight` for `&` / `>>`.  An identifier that is not
defined evaluates to `0` inside `#if`.

Macro bodies and expansions are modelled as strings: the expansion of a
function-like macro is a function from the argument text to the expanded text.

The model is of the first inclusion of the header (`OPENSSL_MACROS_H` not yet
defined).  `NON_EMPTY_TRANSLATION_UNIT`, which is defined unconditionally, is
left out.  A `#define` of a macro that is already defined replaces the earlier
definition.
-/

namespace OpenSSL

/-- The build configuration seen by `macros.h`: every macro the header tests,
with `none` for "not defined".  `OPENSSL_MIN_API` comes from
`<openssl/opensslconf.h>`, which is outside this file, and is a parameter. -/
structure Config where
  /-- Value given with `-DOPENSSL_API_COMPAT=<version>`, if any. -/
  OPENSSL_API_COMPAT : Option Int
  /-- A definition of `OPENSSL_API_LEVEL` made before the header, if any. -/
  OPENSSL_API_LEVEL : Option Int
  /-- The configured minimum API level. -/
  OPENSSL_MIN_API : Int
  /-- A definition of `DECLARE_DEPRECATED(f)` made before the header, if any. -/
  DECLARE_DEPRECATED : Option (String → String)
  __GNUC__ : Option Int
  __GNUC_MINOR__ : Option Int
  __SUNPRO_C : Option Int
  /-- A definition of `OPENSSL_FILE` made before the header, if any. -/
  OPENSSL_FILE : Option String
  /-- A definition of `OPENSSL_LINE` made before the header, if any. -/
  OPENSSL_LINE : Option String
  /-- Whether `OPENSSL_NO_FILENAMES` is defined. -/
  OPENSSL_NO_FILENAMES : Bool
  /-- A definition of `OPENSSL_FUNC` made before the header, if any. -/
  OPENSSL_FUNC : Option String
  __STDC_VERSION__ : Option Int
  _MSC_VER : Option Int

/-- Value of a possibly undefined identifier inside `#if`: undefined is `0`. -/
def ppValue (x : Option Int) : Int := x.getD 0

/-- A replacement list of an object-like macro, as far as the header writes
one: an identifier, a string literal, an integer literal, or the text of a
definition made before the header. -/
inductive Replacement where
  | ident (name : String)
  | stringLit (s : String)
  | intLit (n : Int)
  | predefined (body : String)
  deriving DecidableEq, Repr

/-- The macros `macros.h` leaves defined. -/
structure Macros where
  DECLARE_DEPRECATED : String → String
  OPENSSL_API_LEVEL : Int
  DEPRECATEDIN_4 : String → String
  OPENSSL_API_4 : Int
  DEPRECATEDIN_3 : String → String
  OPENSSL_API_3 : Int
  DEPRECATEDIN_1_1_0 : String → String
  OPENSSL_API_1_1_0 : Int
  DEPRECATEDIN_1_0_0 : String → String
  OPENSSL_API_1_0_0 : Int
  DEPRECATEDIN_0_9_8 : String → String
  OPENSSL_API_0_9_8 : Int
  OPENSSL_FILE : Replacement
  OPENSSL_LINE : Option Replacement
  OPENSSL_FUNC : Replacement

namespace macros_h

/-- Lines 31-44: `DECLARE_DEPRECATED(f)`. -/
def DECLARE_DEPRECATED (cfg : Config) (f : String) : String :=
  match cfg.DECLARE_DEPRECATED with
  | some body => body f
  | none =>
    match cfg.__GNUC__ with
    | some gnuc =>
      if gnuc > 3 ∨ (gnuc = 3 ∧ ppValue cfg.__GNUC_MINOR__ > 0) then
        f ++ " __attribute__ ((deprecated));"
      else f ++ ";"
    | none =>
      match cfg.__SUNPRO_C with
      | some sunpro =>
        if sunpro ≥ 0x5130 then f ++ " __attribute__ ((deprecated));"
        else f ++ ";"
      | none => f ++ ";"

/-- Lines 64-75: the value of `OPENSSL_API_LEVEL` when `OPENSSL_API_COMPAT` is
defined with value `v`. -/
def OPENSSL_API_LEVEL_of_COMPAT (v : Int) : Int :=
  if v < 0x1000 then v
  else if Int.land v 0xF0000000 = 0x00000000 then 0
  else if Int.land v 0xFFF00000 = 0x10000000 then 1
  else if Int.land v 0xFFF00000 = 0x10100000 then 2
  else Int.land (Int.shiftRight v 28) 0xF

/-- Lines 61-76: the value of `OPENSSL_API_LEVEL` after the header defined it. -/
def OPENSSL_API_LEVEL (compat : Option Int) (minApi : Int) : Int :=
  match compat with
  | none => minApi
  | some v => OPENSSL_API_LEVEL_of_COMPAT v

/-- Lines 84-90, annotation operator of tier 4; `dd` is the
`DECLARE_DEPRECATED` in force and `L` the API level. -/
def DEPRECATEDIN_4 (dd : String → String) (L : Int) (f : String) : String :=
  if L < 4 then dd f else ""

/-- Lines 84-90, constant of tier 4. -/
def OPENSSL_API_4 (L : Int) : Int := if L < 4 then 0 else 1

/-- Lines 92-98, annotation operator of tier 3. -/
def DEPRECATEDIN_3 (dd : String → String) (L : Int) (f : String) : String :=
  if L < 3 then dd f else ""

/-- Lines 92-98, constant of tier 3. -/
def OPENSSL_API_3 (L : Int) : Int := if L < 3 then 0 else 1

/-- Lines 100-106, annotation operator of tier 1.1.0. -/
def DEPRECATEDIN_1_1_0 (dd : String → String) (L : Int) (f : String) : String :=
  if L < 2 then dd f else ""

/-- Lines 100-106, constant of tier 1.1.0. -/
def OPENSSL_API_1_1_0 (L : Int) : Int := if L < 2 then 0 else 1

/-- Lines 108-114, annotation operator of tier 1.0.0. -/
def DEPRECATEDIN_1_0_0 (dd : String → String) (L : Int) (f : String) : String :=
  if L < 1 then dd f else ""

/-- Lines 108-114, constant of tier 1.0.0. -/
def OPENSSL_API_1_0_0 (L : Int) : Int := if L < 1 then 0 else 1

/-- Lines 116-122, annotation operator of tier 0.9.8. -/
def DEPRECATEDIN_0_9_8 (dd : String → String) (L : Int) (f : String) : String :=
  if L < 0 then dd f else ""

/-- Lines 116-122, constant of tier 0.9.8. -/
def OPENSSL_API_0_9_8 (L : Int) : Int := if L < 0 then 0 else 1

/-- Lines 124-132: replacement list of `OPENSSL_FILE`. -/
def OPENSSL_FILE (cfg : Config) : Replacement :=
  match cfg.OPENSSL_FILE with
  | some body => .predefined body
  | none => if cfg.OPENSSL_NO_FILENAMES then .stringLit "" else .ident "__FILE__"

/-- Lines 124-132: replacement list of `OPENSSL_LINE`; the header defines it
only when `OPENSSL_FILE` was not defined beforehand. -/
def OPENSSL_LINE (cfg : Config) : Option Replacement :=
  match cfg.OPENSSL_FILE with
  | some _ => cfg.OPENSSL_LINE.map .predefined
  | none =>
    if cfg.OPENSSL_NO_FILENAMES then some (.intLit 0) else some (.ident "__LINE__")

/-- Lines 147-164: replacement list of `OPENSSL_FUNC`. -/
def OPENSSL_FUNC (cfg : Config) : Replacement :=
  match cfg.OPENSSL_FUNC with
  | some body => .predefined body
  | none =>
    match cfg.__STDC_VERSION__ with
    | some stdc =>
      if stdc ≥ 199901 then .ident "__func__"
      else if cfg.__GNUC__.isSome ∧ ppValue cfg.__GNUC__ ≥ 2 then .ident "__FUNCTION__"
      else .stringLit "(unknown function)"
    | none =>
      match cfg._MSC_VER with
      | some _ => .ident "__FUNCTION__"
      | none => .stringLit "(unknown function)"

/-- The text of the `#error` directive of line 58. -/
def conflictError : String :=
  "Disallowed to define both OPENSSL_API_COMPAT and OPENSSL_API_LEVEL"

/-- Lines 31-164 when the `#error` of line 58 is not reached.  A previous
definition of `OPENSSL_API_LEVEL` is replaced by the `#define` of line 62. -/
def defines (cfg : Config) : Macros :=
  let dd := DECLARE_DEPRECATED cfg
  let L := OPENSSL_API_LEVEL cfg.OPENSSL_API_COMPAT cfg.OPENSSL_MIN_API
  { DECLARE_DEPRECATED := dd
    OPENSSL_API_LEVEL := L
    DEPRECATEDIN_4 := DEPRECATEDIN_4 dd L
    OPENSSL_API_4 := OPENSSL_API_4 L
    DEPRECATEDIN_3 := DEPRECATEDIN_3 dd L
    OPENSSL_API_3 := OPENSSL_API_3 L
    DEPRECATEDIN_1_1_0 := DEPRECATEDIN_1_1_0 dd L
    OPENSSL_API_1_1_0 := OPENSSL_API_1_1_0 L
    DEPRECATEDIN_1_0_0 := DEPRECATEDIN_1_0_0 dd L
    OPENSSL_API_1_0_0 := OPENSSL_API_1_0_0 L
    DEPRECATEDIN_0_9_8 := DEPRECATEDIN_0_9_8 dd L
    OPENSSL_API_0_9_8 := OPENSSL_API_0_9_8 L
    OPENSSL_FILE := OPENSSL_FILE cfg
    OPENSSL_LINE := OPENSSL_LINE cfg
    OPENSSL_FUNC := OPENSSL_FUNC cfg }

/-- The whole header: the `#error` of lines 57-59, otherwise the macros. -/
def process (cfg : Config) : Except String Macros :=
  if cfg.OPENSSL_API_COMPAT.isSome ∧ cfg.OPENSSL_API_LEVEL.isSome then
    .error conflictError
  else .ok (defines cfg)

/-- The five deprecation tiers of lines 84-122. -/
inductive Tier where
  | v4 | v3 | v1_1_0 | v1_0_0 | v0_9_8
  deriving DecidableEq, Repr

/-- The level each tier's `#if OPENSSL_API_LEVEL < n` compares against. -/
def Tier.ordinal : Tier → Int
  | .v4 => 4
  | .v3 => 3
  | .v1_1_0 => 2
  | .v1_0_0 => 1
  | .v0_9_8 => 0

/-- The annotation operator `DEPRECATEDIN_t` of a tier. -/
def DEPRECATEDIN (t : Tier) (dd : String → String) (L : Int) (f : String) : String :=
  match t with
  | .v4 => DEPRECATEDIN_4 dd L f
  | .v3 => DEPRECATEDIN_3 dd L f
  | .v1_1_0 => DEPRECATEDIN_1_1_0 dd L f
  | .v1_0_0 => DEPRECATEDIN_1_0_0 dd L f
  | .v0_9_8 => DEPRECATEDIN_0_9_8 dd L f

/-- The constant `OPENSSL_API_t` of a tier. -/
def OPENSSL_API (t : Tier) (L : Int) : Int :=
  match t with
  | .v4 => OPENSSL_API_4 L
  | .v3 => OPENSSL_API_3 L
  | .v1_1_0 => OPENSSL_API_1_1_0 L
  | .v1_0_0 => OPENSSL_API_1_0_0 L
  | .v0_9_8 => OPENSSL_API_0_9_8 L

/-- Bits 28-31 of a non-negative value. -/
def topNibble (v : Int) : Int := v / 2 ^ 28 % 16

/-- Bits 20-31 of a non-negative value. -/
def top12 (v : Int) : Int := v / 2 ^ 20 % 4096

/-- A configuration in which only `OPENSSL_API_COMPAT` (and the minimum API
level) may be set; every other macro is undefined. -/
def bareConfig (compat : Option Int) (minApi : Int) : Config :=
  { OPENSSL_API_COMPAT := compat
    OPENSSL_API_LEVEL := none
    OPENSSL_MIN_API := minApi
    DECLARE_DEPRECATED := none
    __GNUC__ := none
    __GNUC_MINOR__ := none
    __SUNPRO_C := none
    OPENSSL_FILE := none
    OPENSSL_LINE := none
    OPENSSL_NO_FILENAMES := false
    OPENSSL_FUNC := none
    __STDC_VERSION__ := none
    _MSC_VER := none }

/-- The annotation operator `DEPRECATEDIN_t` of a tier, read from the macros
the header defined. -/
def operatorOf (m : Macros) (t : Tier) : String → String :=
  match t with
  | .v4 => m.DEPRECATEDIN_4
  | .v3 => m.DEPRECATEDIN_3
  | .v1_1_0 => m.DEPRECATEDIN_1_1_0
  | .v1_0_0 => m.DEPRECATEDIN_1_0_0
  | .v0_9_8 => m.DEPRECATEDIN_0_9_8

/-- The constant `OPENSSL_API_t` of a tier, read from the macros the header
defined. -/
def constantOf (m : Macros) (t : Tier) : Int :=
  match t with
  | .v4 => m.OPENSSL_API_4
  | .v3 => m.OPENSSL_API_3
  | .v1_1_0 => m.OPENSSL_API_1_1_0
  | .v1_0_0 => m.OPENSSL_API_1_0_0
  | .v0_9_8 => m.OPENSSL_API_0_9_8

/-! ## Auxiliary facts -/

theorem process_ok_of_no_level (cfg : Config) (h : cfg.OPENSSL_API_LEVEL = none) :
    process cfg = .ok (defines cfg) := by
  simp [process, h]

theorem land_shiftLeft_nat (n m k : Nat) :
    n &&& (m <<< k) = ((n >>> k) &&& m) <<< k := by
  apply Nat.eq_of_testBit_eq
  intro i
  simp only [Nat.testBit_and, Nat.testBit_shiftLeft, Nat.testBit_shiftRight]
  by_cases h : k ≤ i
  · simp [h]
  · simp [h]

theorem land_mask_nat (n m k : Nat) :
    n &&& (m * 2 ^ k) = ((n / 2 ^ k) &&& m) * 2 ^ k := by
  have := land_shiftLeft_nat n m k
  simpa [Nat.shiftLeft_eq, Nat.shiftRight_eq_div_pow] using this

theorem land_F0000000 (v : Int) (h : 0 ≤ v) :
    Int.land v 0xF0000000 = topNibble v * 2 ^ 28 := by
  obtain ⟨n, rfl⟩ := Int.eq_ofNat_of_zero_le h
  have h1 : Int.land (n : Int) 0xF0000000 = ((n &&& (15 * 2 ^ 28) : Nat) : Int) := rfl
  have h2 : (n / 2 ^ 28) &&& 15 = n / 2 ^ 28 % 16 := Nat.and_pow_two_sub_one_eq_mod _ 4
  rw [h1, land_mask_nat, h2]
  simp [topNibble]

theorem land_FFF00000 (v : Int) (h : 0 ≤ v) :
    Int.land v 0xFFF00000 = top12 v * 2 ^ 20 := by
  obtain ⟨n, rfl⟩ := Int.eq_ofNat_of_zero_le h
  have h1 : Int.land (n : Int) 0xFFF00000 = ((n &&& (4095 * 2 ^ 20) : Nat) : Int) := rfl
  have h2 : (n / 2 ^ 20) &&& 4095 = n / 2 ^ 20 % 4096 := Nat.and_pow_two_sub_one_eq_mod _ 12
  rw [h1, land_mask_nat, h2]
  simp [top12]

theorem shiftRight_land_F (v : Int) (h : 0 ≤ v) :
    Int.land (Int.shiftRight v 28) 0xF = topNibble v := by
  obtain ⟨n, rfl⟩ := Int.eq_ofNat_of_zero_le h
  have h1 : Int.land (Int.shiftRight (n : Int) 28) 0xF = (((n >>> 28) &&& 15 : Nat) : Int) := rfl
  have h2 : (n >>> 28) &&& 15 = n / 2 ^ 28 % 16 := by
    rw [Nat.shiftRight_eq_div_pow]
    exact Nat.and_pow_two_sub_one_eq_mod _ 4
  rw [h1, h2]
  simp [topNibble]

/-- Arithmetic reading of lines 66-74 for an input that is not below `0x1000`. -/
theorem level_of_packed (v : Int) (h : 0x1000 ≤ v) :
    OPENSSL_API_LEVEL_of_COMPAT v =
      if topNibble v = 0 then 0
      else if top12 v = 0x100 then 1
      else if top12 v = 0x101 then 2
      else topNibble v := by
  have h0 : 0 ≤ v := by omega
  have hlt : ¬ v < 0x1000 := by omega
  unfold OPENSSL_API_LEVEL_of_COMPAT
  rw [if_neg hlt, land_F0000000 v h0, land_FFF00000 v h0, shiftRight_land_F v h0]
  have e1 : (topNibble v * 2 ^ 28 = 0x00000000) ↔ topNibble v = 0 := by omega
  have e2 : (top12 v * 2 ^ 20 = 0x10000000) ↔ top12 v = 0x100 := by omega
  have e3 : (top12 v * 2 ^ 20 = 0x10100000) ↔ top12 v = 0x101 := by omega
  simp only [e1, e2, e3]

theorem process_ok_of_no_compat (cfg : Config) (h : cfg.OPENSSL_API_COMPAT = none) :
    process cfg = .ok (defines cfg) := by
  simp [process, h]

theorem constantOf_defines (cfg : Config) (t : Tier) :
    constantOf (defines cfg) t
      = OPENSSL_API t (OPENSSL_API_LEVEL cfg.OPENSSL_API_COMPAT cfg.OPENSSL_MIN_API) := by
  cases t <;> rfl

theorem operatorOf_defines (cfg : Config) (t : Tier) (f : String) :
    operatorOf (defines cfg) t f
      = DEPRECATEDIN t (DECLARE_DEPRECATED cfg)
          (OPENSSL_API_LEVEL cfg.OPENSSL_API_COMPAT cfg.OPENSSL_MIN_API) f := by
  cases t <;> rfl

theorem OPENSSL_API_eq_one_iff (t : Tier) (L : Int) :
    OPENSSL_API t L = 1 ↔ t.ordinal ≤ L := by
  cases t <;>
    simp only [OPENSSL_API, Tier.ordinal, OPENSSL_API_4, OPENSSL_API_3,
      OPENSSL_API_1_1_0, OPENSSL_API_1_0_0, OPENSSL_API_0_9_8] <;>
    split <;> omega

theorem OPENSSL_API_eq_zero_iff (t : Tier) (L : Int) :
    OPENSSL_API t L = 0 ↔ L < t.ordinal := by
  cases t <;>
    simp only [OPENSSL_API, Tier.ordinal, OPENSSL_API_4, OPENSSL_API_3,
      OPENSSL_API_1_1_0, OPENSSL_API_1_0_0, OPENSSL_API_0_9_8] <;>
    split <;> omega

theorem DEPRECATEDIN_of_lt (t : Tier) (dd : String → String) (L : Int) (f : String)
    (h : L < t.ordinal) : DEPRECATEDIN t dd L f = dd f := by
  cases t <;>
    simp only [DEPRECATEDIN, Tier.ordinal, DEPRECATEDIN_4, DEPRECATEDIN_3,
      DEPRECATEDIN_1_1_0, DEPRECATEDIN_1_0_0, DEPRECATEDIN_0_9_8] at h ⊢ <;>
    rw [if_pos h]

theorem DEPRECATEDIN_of_le (t : Tier) (dd : String → String) (L : Int) (f : String)
    (h : t.ordinal ≤ L) : DEPRECATEDIN t dd L f = "" := by
  cases t <;>
    simp only [DEPRECATEDIN, Tier.ordinal, DEPRECATEDIN_4, DEPRECATEDIN_3,
      DEPRECATEDIN_1_1_0, DEPRECATEDIN_1_0_0, DEPRECATEDIN_0_9_8] at h ⊢ <;>
    rw [if_neg (by omega)]

theorem ordinal_le_four (t : Tier) : t.ordinal ≤ 4 := by
  cases t <;> simp [Tier.ordinal]

theorem ordinal_nonneg (t : Tier) : 0 ≤ t.ordinal := by
  cases t <;> simp [Tier.ordinal]

theorem level_nonneg_of_nonneg (v : Int) (hv : 0 ≤ v) :
    0 ≤ OPENSSL_API_LEVEL_of_COMPAT v := by
  by_cases h : v < 0x1000
  · unfold OPENSSL_API_LEVEL_of_COMPAT
    rw [if_pos h]
    exact hv
  · rw [level_of_packed v (by omega)]
    unfold topNibble top12
    split_ifs <;> omega

theorem append_semicolon_ne_attribute (f : String) :
    f ++ ";" ≠ f ++ " __attribute__ ((deprecated));" := by
  intro h
  have hd := congrArg String.data h
  rw [String.data_append, String.data_append] at hd
  exact absurd (List.append_cancel_left hd) (by decide)

/-- The resolver is monotone on two plain inputs and on two packed inputs,
apart from the pairs in which the larger one has top 12 bits `0x102 .. 0x1FF`
(so that line 74 returns its top nibble 1) and the smaller one has top 12 bits
`0x101`. -/
theorem level_le_level_off_fallback (A B M : Int) (hAB : A < B)
    (hfam : (0 ≤ A ∧ B < 0x1000) ∨ (0x1000 ≤ A ∧ B ≤ 0xFFFFFFFF))
    (hex : ¬ (top12 A = 0x101 ∧ 0x102 ≤ top12 B ∧ top12 B ≤ 0x1FF)) :
    OPENSSL_API_LEVEL (some A) M ≤ OPENSSL_API_LEVEL (some B) M := by
  simp only [OPENSSL_API_LEVEL]
  rcases hfam with ⟨h0, h1⟩ | ⟨h0, h1⟩
  · have hA : A < 0x1000 := by omega
    simp only [OPENSSL_API_LEVEL_of_COMPAT, if_pos hA, if_pos h1]
    omega
  · rw [level_of_packed A h0, level_of_packed B (by omega)]
    unfold top12 at hex
    unfold topNibble top12
    split_ifs <;> omega

/-! ## The resolver -/

/-- C1: when `OPENSSL_API_COMPAT` is defined as `I` with `I < 0x1000` and
`OPENSSL_API_LEVEL` is not pre-defined, the header is processed without error
and the resolved `OPENSSL_API_LEVEL` is `I` itself. -/
theorem level_of_small_compat (cfg : Config) (I : Int)
    (hc : cfg.OPENSSL_API_COMPAT = some I) (hl : cfg.OPENSSL_API_LEVEL = none)
    (hI : I < 0x1000) :
    ∃ m, process cfg = .ok m ∧ m.OPENSSL_API_LEVEL = I := by
  refine ⟨defines cfg, process_ok_of_no_level cfg hl, ?_⟩
  simp [defines, OPENSSL_API_LEVEL, OPENSSL_API_LEVEL_of_COMPAT, hc, hI]

/-- Witness of C1 at `OPENSSL_API_COMPAT = 3`. -/
theorem level_of_small_compat_witness :
    ∃ m, process (bareConfig (some 3) 0) = .ok m ∧ m.OPENSSL_API_LEVEL = 3 :=
  level_of_small_compat (bareConfig (some 3) 0) 3 rfl rfl (by decide)

/-- C2: for a packed legacy input `v` with `0x1000 <= v` (in particular for
`0x1000 <= v <= 0xFFFFFFFF`; the upper bound is not needed) and
`OPENSSL_API_LEVEL` not pre-defined, the header is processed without error and
the resolved level is 0 if bits 28-31 of `v` are 0, 1 if the top 12 bits
(bits 20-31) are `0x100`, and 2 if the top 12 bits are `0x101`. -/
theorem level_of_legacy_series (cfg : Config) (v : Int)
    (hc : cfg.OPENSSL_API_COMPAT = some v) (hl : cfg.OPENSSL_API_LEVEL = none)
    (hlo : 0x1000 ≤ v) :
    ∃ m, process cfg = .ok m ∧
      (topNibble v = 0 → m.OPENSSL_API_LEVEL = 0) ∧
      (top12 v = 0x100 → m.OPENSSL_API_LEVEL = 1) ∧
      (top12 v = 0x101 → m.OPENSSL_API_LEVEL = 2) := by
  refine ⟨defines cfg, process_ok_of_no_level cfg hl, ?_⟩
  have hL : (defines cfg).OPENSSL_API_LEVEL = OPENSSL_API_LEVEL_of_COMPAT v := by
    simp [defines, OPENSSL_API_LEVEL, hc]
  rw [hL, level_of_packed v hlo]
  refine ⟨?_, ?_, ?_⟩
  · intro h
    simp [h]
  · intro h
    have hn : topNibble v ≠ 0 := by
      unfold topNibble
      unfold top12 at h
      omega
    simp [h, hn]
  · intro h
    have hn : topNibble v ≠ 0 := by
      unfold topNibble
      unfold top12 at h
      omega
    simp [h, hn]

/-- Witness of C2: the three series at `0x0090800F`, `0x1000200F` and
`0x1010100F`. -/
theorem level_of_legacy_series_witness :
    (∃ m, process (bareConfig (some 0x0090800F) 7) = .ok m ∧ m.OPENSSL_API_LEVEL = 0) ∧
    (∃ m, process (bareConfig (some 0x1000200F) 7) = .ok m ∧ m.OPENSSL_API_LEVEL = 1) ∧
    (∃ m, process (bareConfig (some 0x1010100F) 7) = .ok m ∧ m.OPENSSL_API_LEVEL = 2) := by
  refine ⟨?_, ?_, ?_⟩
  · obtain ⟨m, hm, h0, _, _⟩ :=
      level_of_legacy_series (bareConfig (some 0x0090800F) 7) 0x0090800F rfl rfl
        (by decide)
    exact ⟨m, hm, h0 (by decide)⟩
  · obtain ⟨m, hm, _, h1, _⟩ :=
      level_of_legacy_series (bareConfig (some 0x1000200F) 7) 0x1000200F rfl rfl
        (by decide)
    exact ⟨m, hm, h1 (by decide)⟩
  · obtain ⟨m, hm, _, _, h2⟩ :=
      level_of_legacy_series (bareConfig (some 0x1010100F) 7) 0x1010100F rfl rfl
        (by decide)
    exact ⟨m, hm, h2 (by decide)⟩

/-- C3: for a 32-bit input `v` whose top nibble (bits 28-31) is `N` with
`3 <= N <= 15` (and `OPENSSL_API_LEVEL` not pre-defined) the header is
processed without error, none of the conditions of lines 64-70 holds, and the
resolved level is `N`. -/
theorem level_of_modern_major (cfg : Config) (v N : Int)
    (hc : cfg.OPENSSL_API_COMPAT = some v) (hl : cfg.OPENSSL_API_LEVEL = none)
    (h0 : 0 ≤ v) (hhi : v ≤ 0xFFFFFFFF)
    (hN : topNibble v = N) (h3 : 3 ≤ N) (h15 : N ≤ 15) :
    ∃ m, process cfg = .ok m ∧ m.OPENSSL_API_LEVEL = N ∧
      ¬ v < 0x1000 ∧ Int.land v 0xF0000000 ≠ 0x00000000 ∧
      Int.land v 0xFFF00000 ≠ 0x10000000 ∧ Int.land v 0xFFF00000 ≠ 0x10100000 := by
  subst hN
  refine ⟨defines cfg, process_ok_of_no_level cfg hl, ?_⟩
  have hL : (defines cfg).OPENSSL_API_LEVEL = OPENSSL_API_LEVEL_of_COMPAT v := by
    simp [defines, OPENSSL_API_LEVEL, hc]
  have hlo : 0x1000 ≤ v := by
    unfold topNibble at h3
    omega
  have hn : topNibble v ≠ 0 := by omega
  have ha : top12 v ≠ 0x100 := by
    unfold topNibble at h3
    unfold top12
    omega
  have hb : top12 v ≠ 0x101 := by
    unfold topNibble at h3
    unfold top12
    omega
  rw [hL, level_of_packed v hlo, land_F0000000 v h0, land_FFF00000 v h0]
  refine ⟨by simp [hn, ha, hb], by omega, by omega, by omega, by omega⟩

/-- Witness of C3 at `0x30000000`, whose top nibble is 3. -/
theorem level_of_modern_major_witness :
    ∃ m, process (bareConfig (some 0x30000000) 0) = .ok m ∧ m.OPENSSL_API_LEVEL = 3 ∧
      ¬ (0x30000000 : Int) < 0x1000 ∧ Int.land 0x30000000 0xF0000000 ≠ 0x00000000 ∧
      Int.land 0x30000000 0xFFF00000 ≠ 0x10000000 ∧
      Int.land 0x30000000 0xFFF00000 ≠ 0x10100000 :=
  level_of_modern_major (bareConfig (some 0x30000000) 0) 0x30000000 3 rfl rfl
    (by decide) (by decide) (by decide) (by decide) (by decide)

/-! ## The configuration conflict -/

/-- C4: processing the header fails with "Disallowed to define both
OPENSSL_API_COMPAT and OPENSSL_API_LEVEL" if and only if both macros are
defined, whatever their values; no other error exists; in the error case no
macro table (no API level, no tier flag) is produced, and in every other case
one is. -/
theorem conflict_error_iff (cfg : Config) :
    (process cfg = .error "Disallowed to define both OPENSSL_API_COMPAT and OPENSSL_API_LEVEL"
      ↔ ∃ c l, cfg.OPENSSL_API_COMPAT = some c ∧ cfg.OPENSSL_API_LEVEL = some l) ∧
    (∀ e, process cfg = .error e →
      e = "Disallowed to define both OPENSSL_API_COMPAT and OPENSSL_API_LEVEL") ∧
    ((∃ c l, cfg.OPENSSL_API_COMPAT = some c ∧ cfg.OPENSSL_API_LEVEL = some l) →
      ∀ m, process cfg ≠ .ok m) ∧
    ((¬ ∃ c l, cfg.OPENSSL_API_COMPAT = some c ∧ cfg.OPENSSL_API_LEVEL = some l) →
      ∃ m, process cfg = .ok m) := by
  cases hc : cfg.OPENSSL_API_COMPAT with
  | none => simp [process, hc]
  | some c =>
    cases hl : cfg.OPENSSL_API_LEVEL with
    | none => simp [process, hc, hl]
    | some l => simp [process, hc, hl, conflictError]

/-- Witness of C4: `OPENSSL_API_COMPAT = 0x10100000` together with
`OPENSSL_API_LEVEL = 3` is rejected and yields no macro table. -/
theorem conflict_error_iff_witness :
    ∀ m, process { bareConfig (some 0x10100000) 0 with OPENSSL_API_LEVEL := some 3 } ≠ .ok m :=
  (conflict_error_iff
    { bareConfig (some 0x10100000) 0 with OPENSSL_API_LEVEL := some 3 }).2.2.1
    ⟨0x10100000, 3, rfl, rfl⟩

/-! ## The deprecation gate -/

/-- C5: with ordinals 4, 3, 2, 1, 0 for the tiers 4, 3, 1.1.0, 1.0.0, 0.9.8,
for every API level `L`, tier `t` and declaration `f`, `DEPRECATEDIN_t(f)`
expands to `DECLARE_DEPRECATED(f)` when `L < ordinal t` and to nothing when
`L >= ordinal t`. -/
theorem DEPRECATEDIN_expansion (dd : String → String) (L : Int) (t : Tier) (f : String) :
    (L < t.ordinal → DEPRECATEDIN t dd L f = dd f) ∧
    (t.ordinal ≤ L → DEPRECATEDIN t dd L f = "") := by
  cases t <;>
    simp only [DEPRECATEDIN, Tier.ordinal, DEPRECATEDIN_4, DEPRECATEDIN_3,
      DEPRECATEDIN_1_1_0, DEPRECATEDIN_1_0_0, DEPRECATEDIN_0_9_8] <;>
    constructor <;> intro h <;> simp [h]

/-- Witness of C5: tier 3 at level 2 (flagged) and at level 3 (suppressed),
with the `DECLARE_DEPRECATED` of a configuration without any toolchain macro. -/
theorem DEPRECATEDIN_expansion_witness :
    DEPRECATEDIN .v3 (DECLARE_DEPRECATED (bareConfig none 0)) 2 "int f(void)"
        = DECLARE_DEPRECATED (bareConfig none 0) "int f(void)" ∧
    DEPRECATEDIN .v3 (DECLARE_DEPRECATED (bareConfig none 0)) 3 "int f(void)" = "" :=
  ⟨(DEPRECATEDIN_expansion _ 2 .v3 _).1 (by decide),
   (DEPRECATEDIN_expansion _ 3 .v3 _).2 (by decide)⟩

/-- C6 fails as stated: at API level 0 the constant `OPENSSL_API_4` is 0
(false) although `0 < 4`. -/
theorem OPENSSL_API_flag_counterexample :
    ¬ (OPENSSL_API .v4 0 ≠ 0 ↔ (0 : Int) < Tier.ordinal .v4) := by
  decide

/-- C6, amended: for every API level `L` and tier `t`, the constant
`OPENSSL_API_t` is 1 (true) if and only if `L >= ordinal t`, and 0 (false) if
and only if `L < ordinal t`. -/
theorem OPENSSL_API_flag (L : Int) (t : Tier) :
    (OPENSSL_API t L = 1 ↔ t.ordinal ≤ L) ∧ (OPENSSL_API t L = 0 ↔ L < t.ordinal) := by
  cases t <;>
    simp only [OPENSSL_API, Tier.ordinal, OPENSSL_API_4, OPENSSL_API_3,
      OPENSSL_API_1_1_0, OPENSSL_API_1_0_0, OPENSSL_API_0_9_8] <;>
    constructor <;> split <;> omega

/-- C7 fails as stated: at API level 4 the operator `DEPRECATEDIN_4` applied
to `int f(void)` does not expand to the declaration itself. -/
theorem DEPRECATEDIN_passthrough_counterexample :
    ¬ (DEPRECATEDIN .v4 (DECLARE_DEPRECATED (bareConfig (some 4) 0))
        (OPENSSL_API_LEVEL (some 4) 0) "int f(void)" = "int f(void)") := by
  decide

/-- C7, amended: for every API level `L`, tier `t` with `L >= ordinal t` and
declaration `f`, `DEPRECATEDIN_t(f)` expands to nothing, whatever
`DECLARE_DEPRECATED` is: the declaration is removed, so for a non-empty `f`
the expansion is not `f`. -/
theorem DEPRECATEDIN_suppressed (dd : String → String) (L : Int) (t : Tier) (f : String)
    (h : t.ordinal ≤ L) :
    DEPRECATEDIN t dd L f = "" ∧ (f ≠ "" → DEPRECATEDIN t dd L f ≠ f) := by
  have he : DEPRECATEDIN t dd L f = "" := by
    cases t <;>
      simp only [DEPRECATEDIN, Tier.ordinal, DEPRECATEDIN_4, DEPRECATEDIN_3,
        DEPRECATEDIN_1_1_0, DEPRECATEDIN_1_0_0, DEPRECATEDIN_0_9_8] at h ⊢ <;>
      rw [if_neg (by omega)]
  refine ⟨he, ?_⟩
  intro hf heq
  exact hf (by rw [← heq, he])

/-- Witness of C7 (amended): tier 1.1.0 at API level 2. -/
theorem DEPRECATEDIN_suppressed_witness :
    DEPRECATEDIN .v1_1_0 (fun f => f ++ ";") 2 "int g(int)" = "" ∧
    ("int g(int)" ≠ "" → DEPRECATEDIN .v1_1_0 (fun f => f ++ ";") 2 "int g(int)" ≠ "int g(int)") :=
  DEPRECATEDIN_suppressed (fun f => f ++ ";") 2 .v1_1_0 "int g(int)" (by decide)

/-! ## Monotonicity and range of the resolver -/

/-- C8 at its failing input: `0x10100000 < 0x10200000` are both packed values
within `0x1000 .. 0xFFFFFFFF`; the first matches line 70 and resolves to level
2, the second matches none of the conditions of lines 64-70, reaches the
fallback row of line 74 (commented "Major number 3 to 15") and resolves to
level 1, so the level decreases. -/
theorem level_not_monotone_at_fallback :
    ((0x1000 : Int) ≤ 0x10100000 ∧ (0x10100000 : Int) < 0x10200000 ∧
      (0x10200000 : Int) ≤ 0xFFFFFFFF) ∧
    (¬ (0x10100000 : Int) < 0x1000 ∧ Int.land 0x10100000 0xF0000000 ≠ 0x00000000 ∧
      Int.land 0x10100000 0xFFF00000 ≠ 0x10000000 ∧
      Int.land 0x10100000 0xFFF00000 = 0x10100000 ∧
      OPENSSL_API_LEVEL (some 0x10100000) 0 = 2) ∧
    (¬ (0x10200000 : Int) < 0x1000 ∧ Int.land 0x10200000 0xF0000000 ≠ 0x00000000 ∧
      Int.land 0x10200000 0xFFF00000 ≠ 0x10000000 ∧
      Int.land 0x10200000 0xFFF00000 ≠ 0x10100000 ∧
      OPENSSL_API_LEVEL (some 0x10200000) 0 = 1) ∧
    ¬ (OPENSSL_API_LEVEL (some 0x10100000) 0 ≤ OPENSSL_API_LEVEL (some 0x10200000) 0) := by
  decide

/-- C9 fails as stated: the non-negative input 16 resolves to level 16, which
is outside `0 .. 15`. -/
theorem level_range_counterexample :
    ¬ ((0 : Int) ≤ 16 →
        0 ≤ OPENSSL_API_LEVEL (some 16) 0 ∧ OPENSSL_API_LEVEL (some 16) 0 ≤ 15) := by
  decide

/-- C9, amended: for every defined non-negative input `v` the resolved level
is in `0 .. 0xFFF`, and it is in `0 .. 15` whenever `v <= 15` or `v >= 0x1000`
(the plain major numbers `16 .. 0xFFF` are used as the level unchanged). -/
theorem level_range (v M : Int) (hv : 0 ≤ v) :
    (0 ≤ OPENSSL_API_LEVEL (some v) M ∧ OPENSSL_API_LEVEL (some v) M ≤ 0xFFF) ∧
    ((v ≤ 15 ∨ 0x1000 ≤ v) →
      0 ≤ OPENSSL_API_LEVEL (some v) M ∧ OPENSSL_API_LEVEL (some v) M ≤ 15) ∧
    (v < 0x1000 → OPENSSL_API_LEVEL (some v) M = v) := by
  simp only [OPENSSL_API_LEVEL]
  by_cases h : v < 0x1000
  · have hv' : OPENSSL_API_LEVEL_of_COMPAT v = v := by
      unfold OPENSSL_API_LEVEL_of_COMPAT
      rw [if_pos h]
    rw [hv']
    exact ⟨by omega, fun h15 => by omega, fun _ => rfl⟩
  · rw [level_of_packed v (by omega)]
    have hr : 0 ≤ (if topNibble v = 0 then 0 else if top12 v = 0x100 then 1
        else if top12 v = 0x101 then 2 else topNibble v) ∧
        (if topNibble v = 0 then 0 else if top12 v = 0x100 then 1
        else if top12 v = 0x101 then 2 else topNibble v) ≤ 15 := by
      unfold topNibble top12
      split_ifs <;> omega
    exact ⟨by omega, fun _ => hr, fun hlt => absurd hlt h⟩

/-- Witness of C9 (amended) at the packed value `0xF0000000`. -/
theorem level_range_witness :
    (0 ≤ OPENSSL_API_LEVEL (some 0xF0000000) 0 ∧
      OPENSSL_API_LEVEL (some 0xF0000000) 0 ≤ 0xFFF) ∧
    (((0xF0000000 : Int) ≤ 15 ∨ (0x1000 : Int) ≤ 0xF0000000) →
      0 ≤ OPENSSL_API_LEVEL (some 0xF0000000) 0 ∧
      OPENSSL_API_LEVEL (some 0xF0000000) 0 ≤ 15) ∧
    ((0xF0000000 : Int) < 0x1000 →
      OPENSSL_API_LEVEL (some 0xF0000000) 0 = 0xF0000000) :=
  level_range 0xF0000000 0 (by decide)

/-- C10: when neither `OPENSSL_API_COMPAT` nor `OPENSSL_API_LEVEL` is defined,
the header is processed without error and the resolved `OPENSSL_API_LEVEL` is
`OPENSSL_MIN_API`, whatever that minimum is. -/
theorem level_default (cfg : Config)
    (hc : cfg.OPENSSL_API_COMPAT = none) (hl : cfg.OPENSSL_API_LEVEL = none) :
    ∃ m, process cfg = .ok m ∧ m.OPENSSL_API_LEVEL = cfg.OPENSSL_MIN_API := by
  refine ⟨defines cfg, process_ok_of_no_level cfg hl, ?_⟩
  simp [defines, OPENSSL_API_LEVEL, hc]

/-- Witness of C10 with `OPENSSL_MIN_API = 5`. -/
theorem level_default_witness :
    ∃ m, process (bareConfig none 5) = .ok m ∧ m.OPENSSL_API_LEVEL = 5 :=
  level_default (bareConfig none 5) rfl rfl

/-! ## Undefined `OPENSSL_API_COMPAT` -/

/-- C11 fails as stated: with `OPENSSL_API_COMPAT` undefined, minimum level 0
and GCC 4, tier 4 is flagged and `DEPRECATEDIN_4` marks the declaration as
deprecated. -/
theorem undefined_compat_unflagged_counterexample :
    ∃ m, process { bareConfig none 0 with __GNUC__ := some 4 } = .ok m ∧
      m.OPENSSL_API_4 = 0 ∧
      m.DEPRECATEDIN_4 "int f(void)" = "int f(void) __attribute__ ((deprecated));" :=
  ⟨defines { bareConfig none 0 with __GNUC__ := some 4 }, rfl, by decide, by decide⟩

/-- C11, amended: when `OPENSSL_API_COMPAT` is undefined the header is
processed without error, and a tier is not flagged (its constant is 1 and its
operator expands to nothing) exactly when the minimum level `OPENSSL_MIN_API`
is at least the tier's ordinal; so no tier is flagged exactly when the minimum
level is at least 4. -/
theorem undefined_compat_unflagged (cfg : Config) (hc : cfg.OPENSSL_API_COMPAT = none) :
    ∃ m, process cfg = .ok m ∧
      (∀ t, (constantOf m t = 1 ∧ ∀ f, operatorOf m t f = "")
        ↔ t.ordinal ≤ cfg.OPENSSL_MIN_API) ∧
      ((∀ t, constantOf m t = 1 ∧ ∀ f, operatorOf m t f = "")
        ↔ 4 ≤ cfg.OPENSSL_MIN_API) := by
  refine ⟨defines cfg, process_ok_of_no_compat cfg hc, ?_⟩
  have key : ∀ t, (constantOf (defines cfg) t = 1 ∧ ∀ f, operatorOf (defines cfg) t f = "")
      ↔ t.ordinal ≤ cfg.OPENSSL_MIN_API := by
    intro t
    simp only [constantOf_defines, operatorOf_defines, hc, OPENSSL_API_LEVEL]
    constructor
    · intro h
      exact (OPENSSL_API_eq_one_iff t _).1 h.1
    · intro h
      exact ⟨(OPENSSL_API_eq_one_iff t _).2 h, fun f => DEPRECATEDIN_of_le t _ _ f h⟩
  refine ⟨key, ?_⟩
  constructor
  · intro h
    exact (key .v4).1 (h .v4)
  · intro h t
    exact (key t).2 (le_trans (ordinal_le_four t) h)

/-- Witness of C11 (amended): minimum level 4, nothing is flagged. -/
theorem undefined_compat_unflagged_witness :
    ∃ m, process (bareConfig none 4) = .ok m ∧
      (∀ t, (constantOf m t = 1 ∧ ∀ f, operatorOf m t f = "")
        ↔ t.ordinal ≤ (bareConfig none 4).OPENSSL_MIN_API) ∧
      ((∀ t, constantOf m t = 1 ∧ ∀ f, operatorOf m t f = "")
        ↔ 4 ≤ (bareConfig none 4).OPENSSL_MIN_API) :=
  undefined_compat_unflagged (bareConfig none 4) rfl

/-- C12 fails as stated: with `OPENSSL_API_COMPAT` undefined and minimum level
0, tier 0.9.8 is not flagged: `DEPRECATEDIN_0_9_8(f)` expands to nothing, not
to `DECLARE_DEPRECATED(f)`. -/
theorem undefined_compat_flagged_counterexample :
    ∃ m, process (bareConfig none 0) = .ok m ∧
      m.OPENSSL_API_0_9_8 = 1 ∧
      m.DEPRECATEDIN_0_9_8 "int f(void)" = "" ∧
      m.DEPRECATEDIN_0_9_8 "int f(void)" ≠ m.DECLARE_DEPRECATED "int f(void)" :=
  ⟨defines (bareConfig none 0), rfl, by decide, by decide, by decide⟩

/-- C12, amended: when `OPENSSL_API_COMPAT` is undefined the header is
processed without error, and a tier is flagged (its constant is 0 and its
operator expands to `DECLARE_DEPRECATED(f)`) exactly when the minimum level
`OPENSSL_MIN_API` is below the tier's ordinal; so all five tiers are flagged
exactly when the minimum level is negative. -/
theorem undefined_compat_flagged (cfg : Config) (hc : cfg.OPENSSL_API_COMPAT = none) :
    ∃ m, process cfg = .ok m ∧
      (∀ t, (constantOf m t = 0 ∧ ∀ f, operatorOf m t f = m.DECLARE_DEPRECATED f)
        ↔ cfg.OPENSSL_MIN_API < t.ordinal) ∧
      ((∀ t, constantOf m t = 0 ∧ ∀ f, operatorOf m t f = m.DECLARE_DEPRECATED f)
        ↔ cfg.OPENSSL_MIN_API < 0) := by
  refine ⟨defines cfg, process_ok_of_no_compat cfg hc, ?_⟩
  have key : ∀ t, (constantOf (defines cfg) t = 0 ∧
      ∀ f, operatorOf (defines cfg) t f = (defines cfg).DECLARE_DEPRECATED f)
      ↔ cfg.OPENSSL_MIN_API < t.ordinal := by
    intro t
    simp only [constantOf_defines, operatorOf_defines, hc, OPENSSL_API_LEVEL]
    constructor
    · intro h
      exact (OPENSSL_API_eq_zero_iff t _).1 h.1
    · intro h
      exact ⟨(OPENSSL_API_eq_zero_iff t _).2 h, fun f => DEPRECATEDIN_of_lt t _ _ f h⟩
  refine ⟨key, ?_⟩
  constructor
  · intro h
    exact (key .v0_9_8).1 (h .v0_9_8)
  · intro h t
    exact (key t).2 (lt_of_lt_of_le h (ordinal_nonneg t))

/-- Witness of C12 (amended): minimum level -1, every tier is flagged. -/
theorem undefined_compat_flagged_witness :
    ∃ m, process (bareConfig none (-1)) = .ok m ∧
      (∀ t, (constantOf m t = 0 ∧ ∀ f, operatorOf m t f = m.DECLARE_DEPRECATED f)
        ↔ (bareConfig none (-1)).OPENSSL_MIN_API < t.ordinal) ∧
      ((∀ t, constantOf m t = 0 ∧ ∀ f, operatorOf m t f = m.DECLARE_DEPRECATED f)
        ↔ (bareConfig none (-1)).OPENSSL_MIN_API < 0) :=
  undefined_compat_flagged (bareConfig none (-1)) rfl

/-! ## End to end -/

/-- C13: for every 32-bit input `v` whose top 12 bits are `0x101` (and
`OPENSSL_API_LEVEL` not pre-defined) the header is processed without error,
the level is 2, tiers 3 and 4 are flagged (`DEPRECATEDIN_3(f)` and
`DEPRECATEDIN_4(f)` expand to `DECLARE_DEPRECATED(f)`, constants 0) and tiers
1.1.0, 1.0.0 and 0.9.8 are not (their operators expand to nothing, constants
1). -/
theorem end_to_end_1_1_x (cfg : Config) (v : Int)
    (hc : cfg.OPENSSL_API_COMPAT = some v) (hl : cfg.OPENSSL_API_LEVEL = none)
    (h0 : 0 ≤ v) (hhi : v ≤ 0xFFFFFFFF) (h12 : top12 v = 0x101) :
    ∃ m, process cfg = .ok m ∧ m.OPENSSL_API_LEVEL = 2 ∧
      (∀ f, m.DEPRECATEDIN_4 f = m.DECLARE_DEPRECATED f) ∧ m.OPENSSL_API_4 = 0 ∧
      (∀ f, m.DEPRECATEDIN_3 f = m.DECLARE_DEPRECATED f) ∧ m.OPENSSL_API_3 = 0 ∧
      (∀ f, m.DEPRECATEDIN_1_1_0 f = "") ∧ m.OPENSSL_API_1_1_0 = 1 ∧
      (∀ f, m.DEPRECATEDIN_1_0_0 f = "") ∧ m.OPENSSL_API_1_0_0 = 1 ∧
      (∀ f, m.DEPRECATEDIN_0_9_8 f = "") ∧ m.OPENSSL_API_0_9_8 = 1 := by
  refine ⟨defines cfg, process_ok_of_no_level cfg hl, ?_⟩
  have hlo : 0x1000 ≤ v := by
    unfold top12 at h12
    omega
  have hn : topNibble v ≠ 0 := by
    unfold topNibble
    unfold top12 at h12
    omega
  have hL : OPENSSL_API_LEVEL cfg.OPENSSL_API_COMPAT cfg.OPENSSL_MIN_API = 2 := by
    rw [hc]
    simp only [OPENSSL_API_LEVEL]
    rw [level_of_packed v hlo]
    simp [hn, h12]
  simp [defines, hL, DEPRECATEDIN_4, DEPRECATEDIN_3, DEPRECATEDIN_1_1_0,
    DEPRECATEDIN_1_0_0, DEPRECATEDIN_0_9_8, OPENSSL_API_4, OPENSSL_API_3,
    OPENSSL_API_1_1_0, OPENSSL_API_1_0_0, OPENSSL_API_0_9_8]

/-- Witness of C13 at `0x1010100F`, the packed number of release 1.1.1. -/
theorem end_to_end_1_1_x_witness :
    ∃ m, process (bareConfig (some 0x1010100F) 0) = .ok m ∧ m.OPENSSL_API_LEVEL = 2 ∧
      (∀ f, m.DEPRECATEDIN_4 f = m.DECLARE_DEPRECATED f) ∧ m.OPENSSL_API_4 = 0 ∧
      (∀ f, m.DEPRECATEDIN_3 f = m.DECLARE_DEPRECATED f) ∧ m.OPENSSL_API_3 = 0 ∧
      (∀ f, m.DEPRECATEDIN_1_1_0 f = "") ∧ m.OPENSSL_API_1_1_0 = 1 ∧
      (∀ f, m.DEPRECATEDIN_1_0_0 f = "") ∧ m.OPENSSL_API_1_0_0 = 1 ∧
      (∀ f, m.DEPRECATEDIN_0_9_8 f = "") ∧ m.OPENSSL_API_0_9_8 = 1 :=
  end_to_end_1_1_x (bareConfig (some 0x1010100F) 0) 0x1010100F rfl rfl
    (by decide) (by decide) (by decide)

/-! ## The boundary of the plain row and the fallback row -/

/-- C14 fails as stated: the input `0x1000` (4096) is within `0 .. 16777215`
but does not satisfy the condition of line 64 and resolves to level 0. -/
theorem plain_major_bound_counterexample :
    ¬ (((0 : Int) ≤ 0x1000 ∧ (0x1000 : Int) ≤ 16777215) →
        ((0x1000 : Int) < 0x1000 ∧ OPENSSL_API_LEVEL (some 0x1000) 0 = 0x1000)) := by
  decide

/-- C14, amended: for every input `I` with `0 <= I <= 16777215`, the plain row
of line 64 applies exactly when `I < 0x1000` (`I <= 4095`), and then the level
is `I` itself; for `0x1000 <= I <= 16777215` bits 28-31 are 0 and the level is
0 (the 0.x series, line 66). -/
theorem plain_major_bound (I M : Int) (h0 : 0 ≤ I) (hI : I ≤ 16777215) :
    (I < 0x1000 → OPENSSL_API_LEVEL (some I) M = I) ∧
    (0x1000 ≤ I → Int.land I 0xF0000000 = 0x00000000 ∧ OPENSSL_API_LEVEL (some I) M = 0) ∧
    (OPENSSL_API_LEVEL (some I) M = I ↔ I < 0x1000) := by
  simp only [OPENSSL_API_LEVEL]
  have hsmall : I < 0x1000 → OPENSSL_API_LEVEL_of_COMPAT I = I := by
    intro h
    unfold OPENSSL_API_LEVEL_of_COMPAT
    rw [if_pos h]
  have hbig : 0x1000 ≤ I → topNibble I = 0 ∧ OPENSSL_API_LEVEL_of_COMPAT I = 0 := by
    intro h
    have hn : topNibble I = 0 := by
      unfold topNibble
      omega
    rw [level_of_packed I h]
    simp [hn]
  refine ⟨hsmall, ?_, ?_⟩
  · intro h
    refine ⟨?_, (hbig h).2⟩
    rw [land_F0000000 I h0, (hbig h).1]
    rfl
  · constructor
    · intro h
      by_contra hc
      have := (hbig (by omega)).2
      omega
    · exact hsmall

/-- Witness of C14 (amended) at the packed number `0x0090800F` of release
0.9.8, which is below 16777215. -/
theorem plain_major_bound_witness :
    OPENSSL_API_LEVEL (some 0x0090800F) 0 = 0 :=
  ((plain_major_bound 0x0090800F 0 (by decide) (by decide)).2.1 (by decide)).2

/-- C15 at its failing inputs: `0x20000000` and `0x10200000` lie within
`0x1000 .. 0xFFFFFFFF` and satisfy none of the conditions of lines 64-70, so
the fallback row of line 74 (commented "Major number 3 to 15") applies, and it
resolves them to `(v >> 28) & 0xF`, which is 2 and 1. -/
theorem fallback_row_below_three :
    (¬ (0x20000000 : Int) < 0x1000 ∧ Int.land 0x20000000 0xF0000000 ≠ 0x00000000 ∧
      Int.land 0x20000000 0xFFF00000 ≠ 0x10000000 ∧
      Int.land 0x20000000 0xFFF00000 ≠ 0x10100000 ∧
      Int.land (Int.shiftRight 0x20000000 28) 0xF = 2 ∧
      OPENSSL_API_LEVEL (some 0x20000000) 0 = 2) ∧
    (¬ (0x10200000 : Int) < 0x1000 ∧ Int.land 0x10200000 0xF0000000 ≠ 0x00000000 ∧
      Int.land 0x10200000 0xFFF00000 ≠ 0x10000000 ∧
      Int.land 0x10200000 0xFFF00000 ≠ 0x10100000 ∧
      Int.land (Int.shiftRight 0x10200000 28) 0xF = 1 ∧
      OPENSSL_API_LEVEL (some 0x10200000) 0 = 1) := by
  decide

/-! ## Toolchain fallbacks -/

/-- C16: when `DECLARE_DEPRECATED` is not pre-defined, `DECLARE_DEPRECATED(f)`
expands to `f __attribute__ ((deprecated));` exactly when `__GNUC__` is
defined and the GCC version is greater than 3.0, or `__GNUC__` is undefined
and `__SUNPRO_C` is defined and at least `0x5130`; in every other
configuration it expands to `f;`.  The macro is defined in every
configuration, and when the header is processed without error the macro it
leaves defined is this one. -/
theorem DECLARE_DEPRECATED_toolchain (cfg : Config) (f : String)
    (hd : cfg.DECLARE_DEPRECATED = none) :
    (DECLARE_DEPRECATED cfg f = f ++ " __attribute__ ((deprecated));" ↔
      ((∃ g, cfg.__GNUC__ = some g ∧ (g > 3 ∨ (g = 3 ∧ ppValue cfg.__GNUC_MINOR__ > 0))) ∨
       (cfg.__GNUC__ = none ∧ ∃ s, cfg.__SUNPRO_C = some s ∧ s ≥ 0x5130))) ∧
    (DECLARE_DEPRECATED cfg f = f ++ ";" ↔
      ¬ ((∃ g, cfg.__GNUC__ = some g ∧ (g > 3 ∨ (g = 3 ∧ ppValue cfg.__GNUC_MINOR__ > 0))) ∨
         (cfg.__GNUC__ = none ∧ ∃ s, cfg.__SUNPRO_C = some s ∧ s ≥ 0x5130))) ∧
    (∀ m, process cfg = .ok m → m.DECLARE_DEPRECATED f = DECLARE_DEPRECATED cfg f) := by
  have hne := append_semicolon_ne_attribute f
  refine ⟨?_, ?_, ?_⟩
  · unfold DECLARE_DEPRECATED
    rw [hd]
    cases hg : cfg.__GNUC__ with
    | some g =>
      by_cases hv : g > 3 ∨ (g = 3 ∧ ppValue cfg.__GNUC_MINOR__ > 0)
      · simp [hv]
      · simp [hv, hne]
    | none =>
      cases hs : cfg.__SUNPRO_C with
      | some sp =>
        by_cases hv : sp ≥ 0x5130
        · simp [hv]
        · simp [hv, hne]
      | none => simp [hne]
  · unfold DECLARE_DEPRECATED
    rw [hd]
    cases hg : cfg.__GNUC__ with
    | some g =>
      by_cases hv : g > 3 ∨ (g = 3 ∧ ppValue cfg.__GNUC_MINOR__ > 0)
      · simp [hv, hne.symm]
      · simp [hv]
    | none =>
      cases hs : cfg.__SUNPRO_C with
      | some sp =>
        by_cases hv : sp ≥ 0x5130
        · simp [hv, hne.symm]
        · simp [hv]
      | none => simp
  · intro m hm
    unfold process at hm
    split at hm
    · cases hm
    · cases hm
      rfl

/-- Witness of C16: GCC 3.1 gets the attribute, GCC 3.0 the plain declaration. -/
theorem DECLARE_DEPRECATED_toolchain_witness :
    DECLARE_DEPRECATED
        { bareConfig none 0 with __GNUC__ := some 3, __GNUC_MINOR__ := some 1 } "int f(void)"
      = "int f(void)" ++ " __attribute__ ((deprecated));" ∧
    DECLARE_DEPRECATED
        { bareConfig none 0 with __GNUC__ := some 3, __GNUC_MINOR__ := some 0 } "int f(void)"
      = "int f(void)" ++ ";" :=
  ⟨(DECLARE_DEPRECATED_toolchain
      { bareConfig none 0 with __GNUC__ := some 3, __GNUC_MINOR__ := some 1 }
      "int f(void)" rfl).1.2 (Or.inl ⟨3, rfl, Or.inr ⟨rfl, by decide⟩⟩),
   (DECLARE_DEPRECATED_toolchain
      { bareConfig none 0 with __GNUC__ := some 3, __GNUC_MINOR__ := some 0 }
      "int f(void)" rfl).2.1.2 (by decide)⟩

/-- C17 at its failing input: with `OPENSSL_FUNC` not pre-defined,
`__STDC_VERSION__` defined as `199409L`, `__GNUC__` undefined and `_MSC_VER`
defined (an MSVC compiler), the header defines `OPENSSL_FUNC` as the string
"(unknown function)" and not as `__FUNCTION__`: the `#elif defined(_MSC_VER)`
of line 154 is reached only when `__STDC_VERSION__` is undefined. -/
theorem OPENSSL_FUNC_msvc_with_old_stdc :
    ∃ m, process { bareConfig none 0 with
                    __STDC_VERSION__ := some 199409, _MSC_VER := some 1900 } = .ok m ∧
      m.OPENSSL_FUNC = .stringLit "(unknown function)" ∧
      m.OPENSSL_FUNC ≠ .ident "__FUNCTION__" :=
  ⟨defines { bareConfig none 0 with
              __STDC_VERSION__ := some 199409, _MSC_VER := some 1900 },
    rfl, by decide, by decide⟩

/-! ## Implicit properties of the gate -/

/-- C18: for every API level `L`, if a tier is flagged (constant 0, operator
expanding to `DECLARE_DEPRECATED(f)`) then every tier with a larger ordinal,
that is every newer tier in the order 0.9.8, 1.0.0, 1.1.0, 3, 4, is flagged
too; equivalently `OPENSSL_API_4 = 1` implies `OPENSSL_API_3 = 1` implies
`OPENSSL_API_1_1_0 = 1` implies `OPENSSL_API_1_0_0 = 1` implies
`OPENSSL_API_0_9_8 = 1`. -/
theorem flags_nested (dd : String → String) (L : Int) :
    (∀ t u : Tier, t.ordinal ≤ u.ordinal → OPENSSL_API t L = 0 →
      (OPENSSL_API u L = 0 ∧ ∀ f, DEPRECATEDIN u dd L f = dd f)) ∧
    (OPENSSL_API_4 L = 1 → OPENSSL_API_3 L = 1) ∧
    (OPENSSL_API_3 L = 1 → OPENSSL_API_1_1_0 L = 1) ∧
    (OPENSSL_API_1_1_0 L = 1 → OPENSSL_API_1_0_0 L = 1) ∧
    (OPENSSL_API_1_0_0 L = 1 → OPENSSL_API_0_9_8 L = 1) := by
  refine ⟨?_, ?_, ?_, ?_, ?_⟩
  · intro t u htu ht
    have h1 : L < t.ordinal := (OPENSSL_API_eq_zero_iff t L).1 ht
    have h2 : L < u.ordinal := lt_of_lt_of_le h1 htu
    exact ⟨(OPENSSL_API_eq_zero_iff u L).2 h2, fun f => DEPRECATEDIN_of_lt u dd L f h2⟩
  · unfold OPENSSL_API_4 OPENSSL_API_3
    intro h
    split at h
    · omega
    · rw [if_neg (by omega)]
  · unfold OPENSSL_API_3 OPENSSL_API_1_1_0
    intro h
    split at h
    · omega
    · rw [if_neg (by omega)]
  · unfold OPENSSL_API_1_1_0 OPENSSL_API_1_0_0
    intro h
    split at h
    · omega
    · rw [if_neg (by omega)]
  · unfold OPENSSL_API_1_0_0 OPENSSL_API_0_9_8
    intro h
    split at h
    · omega
    · rw [if_neg (by omega)]

/-- Witness of C18 at level 2: tier 3 is flagged, hence so is tier 4. -/
theorem flags_nested_witness :
    OPENSSL_API .v4 2 = 0 ∧ ∀ f, DEPRECATEDIN .v4 (fun d => d ++ ";") 2 f = f ++ ";" :=
  (flags_nested (fun d => d ++ ";") 2).1 .v3 .v4 (by decide) (by decide)

/-- C19: when `OPENSSL_API_LEVEL` is pre-defined as `L` and
`OPENSSL_API_COMPAT` is undefined, the header raises no error and defines
`OPENSSL_API_LEVEL` as `OPENSSL_MIN_API`: the result is the same as without
the pre-definition, and every tier's constant and operator are those of the
level `OPENSSL_MIN_API`, whatever `L` is. -/
theorem predefined_level_not_honoured (cfg : Config) (L : Int)
    (hc : cfg.OPENSSL_API_COMPAT = none) :
    process { cfg with OPENSSL_API_LEVEL := some L }
      = process { cfg with OPENSSL_API_LEVEL := none } ∧
    ∃ m, process { cfg with OPENSSL_API_LEVEL := some L } = .ok m ∧
      m.OPENSSL_API_LEVEL = cfg.OPENSSL_MIN_API ∧
      ∀ t, constantOf m t = OPENSSL_API t cfg.OPENSSL_MIN_API ∧
        ∀ f, operatorOf m t f
          = DEPRECATEDIN t m.DECLARE_DEPRECATED cfg.OPENSSL_MIN_API f := by
  have hc1 : ({ cfg with OPENSSL_API_LEVEL := some L } : Config).OPENSSL_API_COMPAT = none := hc
  refine ⟨?_, defines { cfg with OPENSSL_API_LEVEL := some L },
    process_ok_of_no_compat _ hc1, ?_, ?_⟩
  · rw [process_ok_of_no_compat _ hc1, process_ok_of_no_level _ rfl]
    rfl
  · simp [defines, OPENSSL_API_LEVEL, hc]
  · intro t
    refine ⟨?_, fun f => ?_⟩
    · rw [constantOf_defines, hc1]
      rfl
    · rw [operatorOf_defines, hc1]
      rfl

/-- Witness of C19: `OPENSSL_API_LEVEL` pre-defined as 3 with minimum level 0
resolves to level 0. -/
theorem predefined_level_not_honoured_witness :
    ∃ m, process { bareConfig none 0 with OPENSSL_API_LEVEL := some 3 } = .ok m ∧
      m.OPENSSL_API_LEVEL = 0 ∧
      ∀ t, constantOf m t = OPENSSL_API t 0 ∧
        ∀ f, operatorOf m t f = DEPRECATEDIN t m.DECLARE_DEPRECATED 0 f :=
  (predefined_level_not_honoured (bareConfig none 0) 3 rfl).2

/-- C20: for every API level `L >= 0` the operator `DEPRECATEDIN_0_9_8(f)`
expands to nothing and `OPENSSL_API_0_9_8` is 1; the level resolved from a
non-negative `OPENSSL_API_COMPAT` is non-negative; the tier is flagged only
for a negative level, and a negative level arises only from a negative input
below `0x1000` (used unchanged) or, with the input undefined, from a negative
`OPENSSL_MIN_API`. -/
theorem tier_0_9_8_inert (dd : String → String) (compat : Option Int) (M : Int) :
    (∀ L f, 0 ≤ L → DEPRECATEDIN_0_9_8 dd L f = "" ∧ OPENSSL_API_0_9_8 L = 1) ∧
    (∀ L, OPENSSL_API_0_9_8 L = 0 → L < 0) ∧
    (∀ v, compat = some v → 0 ≤ v → 0 ≤ OPENSSL_API_LEVEL compat M) ∧
    (OPENSSL_API_LEVEL compat M < 0 →
      (∃ v, compat = some v ∧ v < 0 ∧ OPENSSL_API_LEVEL compat M = v) ∨
      (compat = none ∧ M < 0)) := by
  refine ⟨?_, ?_, ?_, ?_⟩
  · intro L f hL
    unfold DEPRECATEDIN_0_9_8 OPENSSL_API_0_9_8
    rw [if_neg (by omega), if_neg (by omega)]
    exact ⟨rfl, rfl⟩
  · intro L h
    unfold OPENSSL_API_0_9_8 at h
    split at h
    · assumption
    · omega
  · intro v hv h0
    rw [hv]
    exact level_nonneg_of_nonneg v h0
  · intro h
    cases compat with
    | none => exact Or.inr ⟨rfl, h⟩
    | some v =>
      left
      have hneg : v < 0 := by
        by_contra hc
        have := level_nonneg_of_nonneg v (by omega)
        simp only [OPENSSL_API_LEVEL] at h
        omega
      refine ⟨v, rfl, hneg, ?_⟩
      simp only [OPENSSL_API_LEVEL]
      unfold OPENSSL_API_LEVEL_of_COMPAT
      rw [if_pos (by omega)]

/-- Witness of C20: at level 0 the 0.9.8 tier is not flagged, and the negative
input -1 is what produces a negative level. -/
theorem tier_0_9_8_inert_witness :
    (DEPRECATEDIN_0_9_8 (fun d => d ++ ";") 0 "int f(void)" = "" ∧ OPENSSL_API_0_9_8 0 = 1) ∧
    ((∃ v, some (-1 : Int) = some v ∧ v < 0 ∧ OPENSSL_API_LEVEL (some (-1)) 0 = v) ∨
      (some (-1 : Int) = none ∧ (0 : Int) < 0)) :=
  ⟨(tier_0_9_8_inert (fun d => d ++ ";") (some (-1)) 0).1 0 "int f(void)" (by decide),
   (tier_0_9_8_inert (fun d => d ++ ";") (some (-1)) 0).2.2.2 (by decide)⟩

end macros_h

end OpenSSL
